import Mathlib

/-!
Verification of the BeReal export pipeline (`bereal_exporter.py`).

The development shallowly embeds the pure decision logic of
`BeRealExporter`: time-span construction, record filtering and sorting,
image-path resolution, timezone localization, EXIF-tag construction and
the per-record export loop.  External collaborators (the file system,
`datetime` parsing/formatting, `timezonefinder`, `pytz`, PIL's
floating-point resize) are modelled as oracle functions gathered in an
`Env` structure; theorems quantify over all oracle behaviours.
Python exceptions are modelled with `Except`: a library call that can
raise returns `Except String α`, and a `try/except` block in the source
becomes a `match` on that result.  UTC instants are modelled as integers
(an abstract linear timeline; `dateToInstant y m d` is the instant of
midnight UTC on the given date, and one day is 86400 seconds, so
23:59:59 of a day starting at `t` is `t + 86399`).
-/

namespace BRE

/-- Character-list prefix test, used to build substring containment
(Python's `in` operator on strings). -/
def startsWithChars : List Char → List Char → Bool
  | [], _ => true
  | _ :: _, [] => false
  | a :: as, b :: bs => a = b && startsWithChars as bs

/-- `hasInfixChars needle hay` is Python's `needle in hay` on strings,
on the underlying character lists. -/
def hasInfixChars (needle : List Char) : List Char → Bool
  | [] => startsWithChars needle []
  | hay@(_ :: rest) => startsWithChars needle hay || hasInfixChars needle rest

/-- Python `sub in s` for strings. -/
def strContains (s sub : String) : Bool :=
  hasInfixChars sub.toList s.toList

/-- Python `s.split(sep)` for a one-character separator, on the
character list, accumulating the current field. -/
def splitOnCharAux (c : Char) : List Char → List Char → List String
  | [], acc => [String.mk acc.reverse]
  | x :: xs, acc =>
      if x = c then String.mk acc.reverse :: splitOnCharAux c xs []
      else splitOnCharAux c xs (x :: acc)

/-- Python `s.split(sep)` for a one-character separator: always returns
at least one field; empty fields are kept (`"".split("-") == [""]`,
`"a-".split("-") == ["a", ""]`). -/
def splitOnChar (c : Char) (s : String) : List String :=
  splitOnCharAux c s.toList []

/-- ASCII whitespace, for Python `str.strip()`. -/
def isSpaceChar (c : Char) : Bool :=
  c = ' ' || c = '\t' || c = '\n' || c = '\r'

/-- Python `s.strip()`: drop leading and trailing whitespace. -/
def pyStrip (s : String) : String :=
  String.mk (((s.toList.dropWhile isSpaceChar).reverse.dropWhile isSpaceChar).reverse)

/-- `os.path.basename`: the component after the last slash. -/
def basename (p : String) : String :=
  (splitOnChar '/' p).getLastD ""

/-- `os.path.join` for a relative second component:
the source always joins an export root (already stripped of trailing
slashes) with relative sub-paths and bare filenames. -/
def pathJoin (a b : String) : String :=
  a ++ "/" ++ b

/-- Oracles for the external collaborators used by the exporter.

* `isfile` — `os.path.isfile`.
* `parseTime s` — `dt.fromisoformat(s.replace("Z", "+00:00")).astimezone(timezone.utc)`
  as a UTC instant; `none` when the expression raises.
* `parseDate s` — `dt.strptime(s, "%d.%m.%Y")` as the UTC-midnight instant of
  that date; `none` when `strptime` raises `ValueError`.
* `dateToInstant y m d` — the UTC instant of `dt(y, m, d)` (midnight).
* `splitextRoot`/`splitextExt` — the two components of `os.path.splitext`.
* `fmtTs` — `strftime("%Y-%m-%d_%H-%M-%S")` of a UTC instant.
* `fmtDate` — `strftime("%Y-%m-%d")` of a UTC instant.
* `fmtExif t z` — `strftime("%Y:%m:%d %H:%M:%S")` of the naive local wall
  clock of instant `t` rendered in zone `z`.
* `tfTimezoneAt lng lat` — `TimezoneFinder.timezone_at(lng=…, lat=…)`:
  `.ok (some name)` a zone was found, `.ok none` no zone, `.error` the
  lookup raised (e.g. out-of-range coordinates).
* `pytzTimezone name` — `pytz.timezone(name)`: `.error` models
  `UnknownTimeZoneError`.
* `resizeHeight sf fw fh` — the Python float expression
  `int((sf / fw) * fh)` from `create_composite`.
* `dtMin` — the instant of `dt.min.replace(tzinfo=timezone.utc)`.
* `now` — `dt.now(tz=timezone.utc)` as an instant. -/
structure Env where
  isfile : String → Bool
  parseTime : String → Option Int
  parseDate : String → Option Int
  dateToInstant : Int → Nat → Nat → Int
  splitextRoot : String → String
  splitextExt : String → String
  fmtTs : Int → String
  fmtDate : Int → String
  fmtExif : Int → String → String
  tfTimezoneAt : Rat → Rat → Except String (Option String)
  pytzTimezone : String → Except String String
  resizeHeight : Nat → Nat → Nat → Nat
  dtMin : Int
  now : Int

/-- A timezone-aware Python `datetime`: the absolute UTC instant it
denotes together with the zone used for its wall-clock rendering. -/
structure PyDatetime where
  instant : Int
  zone : String
deriving DecidableEq

/-- `datetime.astimezone` on an aware datetime: same absolute instant,
new rendering zone. -/
def astimezone (d : PyDatetime) (z : String) : PyDatetime :=
  ⟨d.instant, z⟩

/-- The three identical fallback sites of `localize_datetime`
(lines 256-264, 272-281, 286-294): if a default zone is configured
(Python truthiness: not `None` and not empty) and `pytz` accepts it,
convert; otherwise keep the UTC datetime.  The warning printed on an
invalid default zone is a log side effect and is not modelled. -/
def fallbackOrUtc (env : Env) (default_tz : Option String) (dt_utc : PyDatetime) : PyDatetime :=
  match default_tz with
  | some s =>
      if s = "" then dt_utc
      else
        match env.pytzTimezone s with
        | Except.ok z => astimezone dt_utc z
        | Except.error _ => dt_utc
  | none => dt_utc

/-- `BeRealExporter.localize_datetime` (lines 250-294).  `lat`/`lon` are
`None`-able; the body's `try/except` blocks become matches on the
`Except`-valued oracles.  A `pytz` failure on a found zone name happens
inside the outer `try`, so it lands in the same fallback as a raised
lookup.  `timezone_at` is called as `timezone_at(lng=lon, lat=lat)`. -/
def localize_datetime (env : Env) (default_tz : Option String) (dt_utc : PyDatetime)
    (lat lon : Option Rat) : Except String PyDatetime :=
  match lat, lon with
  | some la, some lo =>
      match env.tfTimezoneAt lo la with
      | Except.error _ => Except.ok (fallbackOrUtc env default_tz dt_utc)
      | Except.ok tzName =>
          match tzName with
          | some name =>
              if name = "" then Except.ok (fallbackOrUtc env default_tz dt_utc)
              else
                match env.pytzTimezone name with
                | Except.ok z => Except.ok (astimezone dt_utc z)
                | Except.error _ => Except.ok (fallbackOrUtc env default_tz dt_utc)
          | none => Except.ok (fallbackOrUtc env default_tz dt_utc)
  | _, _ => Except.ok (fallbackOrUtc env default_tz dt_utc)

/-- The time-zone source of a localized timestamp (spec §3, §4.3). -/
inductive TzSource where
  | geo
  | fallbackDefault
  | noneSrc
deriving DecidableEq

/-- Modelled from the spec: steps 1, 3 and 4 of the §4.3 fallback chain —
use the configured default zone when present and valid
(`source = fallback-default`), else keep UTC (`source = none`). -/
def fallback_pair (env : Env) (default_tz : Option String) (dt_utc : PyDatetime) :
    PyDatetime × TzSource :=
  match default_tz with
  | some s =>
      if s = "" then (dt_utc, TzSource.noneSrc)
      else
        match env.pytzTimezone s with
        | Except.ok z => (astimezone dt_utc z, TzSource.fallbackDefault)
        | Except.error _ => (dt_utc, TzSource.noneSrc)
  | none => (dt_utc, TzSource.noneSrc)

/-- Modelled from the spec: the §4.3 localization chain as a pure tagged
function — geographic lookup when coordinates are present and the found
zone is accepted (`source = geo`), else the default-zone-or-UTC fallback.
This is the refinement target `localize_datetime` is compared with. -/
def localize_spec (env : Env) (default_tz : Option String) (dt_utc : PyDatetime)
    (lat lon : Option Rat) : PyDatetime × TzSource :=
  match lat, lon with
  | some la, some lo =>
      match env.tfTimezoneAt lo la with
      | Except.ok (some name) =>
          if name = "" then fallback_pair env default_tz dt_utc
          else
            match env.pytzTimezone name with
            | Except.ok z => (astimezone dt_utc z, TzSource.geo)
            | Except.error _ => fallback_pair env default_tz dt_utc
      | Except.ok none => fallback_pair env default_tz dt_utc
      | Except.error _ => fallback_pair env default_tz dt_utc
  | _, _ => fallback_pair env default_tz dt_utc

/-- The EXIF tag dictionary built by `embed_exif` (lines 302-315): the
`DateTimeOriginal` string and, when both coordinates are present, the
four GPS tags. -/
structure ExifTags where
  dateTimeOriginal : String
  gpsLatitude : Option Rat
  gpsLatitudeRef : Option String
  gpsLongitude : Option Rat
  gpsLongitudeRef : Option String
deriving DecidableEq

/-- `BeRealExporter.embed_exif` (lines 296-323), up to the tag
dictionary it submits to ExifTool.  The ExifTool invocation itself is an
external collaborator whose failure is caught and logged (lines
317-323), so it cannot change the tags or raise; it is not modelled.
`naive_local = final_dt.replace(tzinfo=None)` followed by `strftime` is
the oracle `fmtExif` applied to the localized instant and zone. -/
def embed_exif (env : Env) (default_tz : Option String) (dt_utc : PyDatetime)
    (lat lon : Option Rat) : Except String ExifTags :=
  match localize_datetime env default_tz dt_utc lat lon with
  | Except.error e => Except.error e
  | Except.ok final_dt =>
      let dto := env.fmtExif final_dt.instant final_dt.zone
      match lat, lon with
      | some la, some lo =>
          Except.ok
            { dateTimeOriginal := dto
              gpsLatitude := some (abs la)
              gpsLatitudeRef := some (if 0 ≤ la then "N" else "S")
              gpsLongitude := some (abs lo)
              gpsLongitudeRef := some (if 0 ≤ lo then "E" else "W") }
      | _, _ =>
          Except.ok
            { dateTimeOriginal := dto
              gpsLatitude := none
              gpsLatitudeRef := none
              gpsLongitude := none
              gpsLongitudeRef := none }

/-- `BeRealExporter.resolve_img_path` (lines 227-248).  The `if/elif`
layout-hint probe returns early on success; otherwise the two
conventional directories are probed, current (`Photos/post`) before
legacy (`Photos/bereal`). -/
def resolve_img_path (env : Env) (bereal_path path_str : String) : Option String :=
  let hint : Option String :=
    if strContains path_str "/post/" then
      let c := pathJoin (pathJoin bereal_path "Photos/post") (basename path_str)
      if env.isfile c then some c else none
    else if strContains path_str "/bereal/" then
      let c := pathJoin (pathJoin bereal_path "Photos/bereal") (basename path_str)
      if env.isfile c then some c else none
    else none
  match hint with
  | some c => some c
  | none =>
      let p1 := pathJoin (pathJoin bereal_path "Photos/post") (basename path_str)
      let p2 := pathJoin (pathJoin bereal_path "Photos/bereal") (basename path_str)
      if env.isfile p1 then some p1
      else if env.isfile p2 then some p2
      else none

/-- Modelled from the spec: the ordered candidate list of §4.2 — the
hint-indicated conventional subdirectory first (`/post/` or `/bereal/`),
then, regardless of the hint outcome, the current convention
`Photos/post` before the legacy convention `Photos/bereal`, all keyed by
the reference's filename basename. -/
def spec_candidates (bereal_path path_str : String) : List String :=
  let post := pathJoin (pathJoin bereal_path "Photos/post") (basename path_str)
  let bereal := pathJoin (pathJoin bereal_path "Photos/bereal") (basename path_str)
  (if strContains path_str "/post/" then [post]
   else if strContains path_str "/bereal/" then [bereal]
   else []) ++ [post, bereal]

/-- First candidate that exists on the file system, else not-found. -/
def firstExisting (env : Env) : List String → Option String
  | [] => none
  | p :: ps => if env.isfile p then some p else firstExisting env ps

/-- One memory record, restricted to the fields the exporter consumes.
`location` is read with `mem.get("location", {}).get(...)`, so the two
coordinates are independently optional. -/
structure Memory where
  takenTime : String
  frontImagePath : String
  backImagePath : String
  latitude : Option Rat
  longitude : Option Rat
deriving DecidableEq

/-- `BeRealExporter.filter_memories_in_timespan` (lines 389-400).  The
bare `except: continue` around the timestamp parse becomes the `none`
case of the `parseTime` oracle; the window test `start_dt <= d <= end_dt`
is inclusive on both ends. -/
def filter_memories_in_timespan (env : Env) (time_span : Int × Int)
    (memories : List Memory) : List Memory :=
  memories.filter fun m =>
    match env.parseTime m.takenTime with
    | none => false
    | some d => decide (time_span.1 ≤ d ∧ d ≤ time_span.2)

/-- The sort key `dt_key` of `export_memories` (lines 405-409): the
parsed timestamp, or `dt.min.replace(tzinfo=utc)` when parsing raises
(unreachable after filtering).  The key omits `.astimezone(utc)`, but
aware datetimes compare by absolute instant, so the oracle value is the
comparison key. -/
def dt_key (env : Env) (m : Memory) : Int :=
  match env.parseTime m.takenTime with
  | some d => d
  | none => env.dtMin

/-- Observable actions of one export run, in program order: file copies,
EXIF submissions, composite creations, progress-bar updates and log
lines. -/
inductive ExportEvent where
  | copyFile (src dst : String)
  | embedTags (file : String) (tags : ExifTags)
  | compositeImg (front back outp : String) (frontW frontH radius : Nat)
  | progress (iteration total : Nat) (dateStr : String)
  | logMsg (msg : String)
deriving DecidableEq

/-- `scale_factor = max(1, b_w // 4)` (line 359). -/
def scale_factor (b_w : Nat) : Nat := max 1 (b_w / 4)

/-- The geometry computed by `create_composite` (lines 357-374): resized
front size, rounded-corner radius (`min(front_resized.size) // 8`, the
minimum running over the width/height pair), paste origin of
`alpha_composite` and the final `convert("RGB")` flattening. -/
structure CompositeGeom where
  frontW : Nat
  frontH : Nat
  radius : Nat
  pasteX : Nat
  pasteY : Nat
  flattenedRGB : Bool
deriving DecidableEq

/-- Geometry of `create_composite` for back width `b_w` and front size
`f_w × f_h`; the front height comes from the floating-point expression
`int((scale_factor / f_w) * f_h)`, modelled by the `resizeHeight`
oracle. -/
def composite_geom (env : Env) (b_w f_w f_h : Nat) : CompositeGeom :=
  let sf := scale_factor b_w
  let nh := env.resizeHeight sf f_w f_h
  { frontW := sf
    frontH := nh
    radius := min sf nh / 8
    pasteX := 0
    pasteY := 0
    flattenedRGB := true }

/-- `BeRealExporter.copy_and_embed` (lines 325-339): missing source ⇒
log and `None`; otherwise extension defaulting (`or ".webp"`), copy,
EXIF embed, and the new path is returned. -/
def copy_and_embed (env : Env) (default_tz : Option String)
    (old_path new_path : String) (dt_utc : PyDatetime) (lat lon : Option Rat) :
    Except String (List ExportEvent × Option String) :=
  if old_path = "" ∨ env.isfile old_path = false then
    Except.ok ([ExportEvent.logMsg ("File not found: " ++ old_path)], none)
  else
    let ext := if env.splitextExt old_path = "" then ".webp" else env.splitextExt old_path
    let new_path2 := env.splitextRoot new_path ++ ext
    match embed_exif env default_tz dt_utc lat lon with
    | Except.error e => Except.error e
    | Except.ok tags =>
        Except.ok
          ([ExportEvent.copyFile old_path new_path2,
            ExportEvent.embedTags new_path2 tags], some new_path2)

/-- `BeRealExporter.create_composite` (lines 341-387).  The `sizeOf`
oracle is `Image.open(...).size`; `none` models an `Image.open` failure,
landing in the `except` branch (log, return `None`).  Failures of the
later PIL calls inside the same `try` are not distinguished.  After a
successful composite the EXIF step runs on the output path. -/
def create_composite (env : Env) (default_tz : Option String)
    (sizeOf : String → Option (Nat × Nat))
    (front_path back_path out_path : String) (dt_utc : PyDatetime)
    (lat lon : Option Rat) : Except String (List ExportEvent × Option String) :=
  let ext := if env.splitextExt out_path = "" then ".webp" else env.splitextExt out_path
  let outp := env.splitextRoot out_path ++ ext
  match sizeOf back_path, sizeOf front_path with
  | some (b_w, _), some (f_w, f_h) =>
      let g := composite_geom env b_w f_w f_h
      match embed_exif env default_tz dt_utc lat lon with
      | Except.error e => Except.error e
      | Except.ok tags =>
          Except.ok
            ([ExportEvent.compositeImg front_path back_path outp g.frontW g.frontH g.radius,
              ExportEvent.embedTags outp tags], some outp)
  | _, _ =>
      Except.ok
        ([ExportEvent.logMsg
            ("Error creating composite for " ++ front_path ++ " & " ++ back_path)], none)

/-- The body of the `for i, mem in enumerate(memories, start=1)` loop of
`export_memories` (lines 419-453).  The timestamp re-parse at line 421
is outside any `try`, so its failure would propagate (`Except.error`);
the missing-image check covers both sides before any copy. -/
def exportStep (env : Env) (default_tz : Option String) (create_composites : Bool)
    (sizeOf : String → Option (Nat × Nat)) (bereal_path out_mem out_cmp : String)
    (total i : Nat) (mem : Memory) : Except String (List ExportEvent) :=
  match env.parseTime mem.takenTime with
  | none => Except.error "ValueError: invalid isoformat string"
  | some t =>
      let m_dt : PyDatetime := ⟨t, "UTC"⟩
      let lat := mem.latitude
      let lon := mem.longitude
      match resolve_img_path env bereal_path mem.frontImagePath,
            resolve_img_path env bereal_path mem.backImagePath with
      | some front_src, some back_src =>
          let base_ts := env.fmtTs t
          let front_out := pathJoin out_mem (base_ts ++ "_front")
          let back_out := pathJoin out_mem (base_ts ++ "_back")
          match copy_and_embed env default_tz front_src front_out m_dt lat lon with
          | Except.error e => Except.error e
          | Except.ok (evF, finalF) =>
              match copy_and_embed env default_tz back_src back_out m_dt lat lon with
              | Except.error e => Except.error e
              | Except.ok (evB, finalB) =>
                  let comp : Except String (List ExportEvent × Option String) :=
                    match create_composites, finalF, finalB with
                    | true, some cf, some cb =>
                        create_composite env default_tz sizeOf cf cb
                          (pathJoin out_cmp (base_ts ++ "_composite")) m_dt lat lon
                    | _, _, _ => Except.ok ([], none)
                  match comp with
                  | Except.error e => Except.error e
                  | Except.ok (evC, _) =>
                      Except.ok (evF ++ evB ++ evC ++
                        [ExportEvent.progress i total (env.fmtDate t)])
      | _, _ =>
          Except.ok
            [ExportEvent.logMsg "Skipping memory due to missing front/back images.",
             ExportEvent.progress i total ""]

/-- The export loop: `enumerate(memories, start=1)` with the running
index threaded explicitly. -/
def exportLoop (env : Env) (default_tz : Option String) (create_composites : Bool)
    (sizeOf : String → Option (Nat × Nat)) (bereal_path out_mem out_cmp : String)
    (total : Nat) : Nat → List Memory → Except String (List ExportEvent)
  | _, [] => Except.ok []
  | i, m :: rest =>
      match exportStep env default_tz create_composites sizeOf bereal_path
              out_mem out_cmp total i m with
      | Except.error e => Except.error e
      | Except.ok evs =>
          match exportLoop env default_tz create_composites sizeOf bereal_path
                  out_mem out_cmp total (i + 1) rest with
          | Except.error e => Except.error e
          | Except.ok evrest => Except.ok (evs ++ evrest)

/-- `BeRealExporter.export_memories` (lines 402-453): filter to the time
window, stable ascending sort by `dt_key` (CPython's `list.sort` is
stable; `List.mergeSort` is the stable sort of the library), then the
per-record loop with `total = len(memories)` taken from the filtered
list.  The idempotent `os.makedirs` calls are not observable events. -/
def export_memories (env : Env) (default_tz : Option String) (create_composites : Bool)
    (sizeOf : String → Option (Nat × Nat)) (time_span : Int × Int)
    (bereal_path out_path : String) (memories : List Memory) :
    Except String (List ExportEvent) :=
  let filtered := filter_memories_in_timespan env time_span memories
  let sorted := List.mergeSort filtered (fun a b => decide (dt_key env a ≤ dt_key env b))
  let out_mem := pathJoin out_path "memories"
  let out_cmp := pathJoin out_path "composites"
  exportLoop env default_tz create_composites sizeOf bereal_path out_mem out_cmp
    sorted.length 1 sorted

/-- Number of progress-bar updates in an event list. -/
def isProgress : ExportEvent → Bool
  | ExportEvent.progress _ _ _ => true
  | _ => false

/-- Whether an event is a file copy or a composite creation. -/
def isCopyOrComposite : ExportEvent → Bool
  | ExportEvent.copyFile _ _ => true
  | ExportEvent.compositeImg _ _ _ _ _ _ => true
  | _ => false

/-- The resolved lower bound of an explicit span (lines 188-192):
`"*"` means `dt(1970, 1, 1, tzinfo=utc)` (the epoch start), anything
else is `strptime(s, "%d.%m.%Y")` at midnight UTC. -/
def span_start_bound (env : Env) (s : String) : Option Int :=
  if s = "*" then some (env.dateToInstant 1970 1 1) else env.parseDate s

/-- The resolved upper bound of an explicit span (lines 193-198):
`"*"` means `dt.now(tz=utc)`, anything else is the parsed date with the
time set to 23:59:59. -/
def span_end_bound (env : Env) (s : String) : Option Int :=
  if s = "*" then some env.now else (env.parseDate s).map (fun d => d + 86399)

/-- The `elif args.year` / `else` arms of `init_time_span` (lines
204-215).  `elif args.year:` uses Python truthiness, so year `0` falls
through to the all-time default. -/
def default_or_year_span (env : Env) (year : Option Int) : Int × Int :=
  match year with
  | some y =>
      if y = 0 then (env.dateToInstant 1970 1 1, env.now)
      else (env.dateToInstant y 1 1, env.dateToInstant y 12 31 + 86399)
  | none => (env.dateToInstant 1970 1 1, env.now)

/-- `BeRealExporter.init_time_span` (lines 184-215).  `if args.timespan:`
uses Python truthiness, so the empty string falls through to the
year/default arms.  The tuple unpacking of `split("-")` and the
`strptime` calls raise `ValueError` inside the `try`, re-raised as the
"Invalid timespan format" error. -/
def init_time_span (env : Env) (timespan : Option String) (year : Option Int) :
    Except String (Int × Int) :=
  match timespan with
  | some ts =>
      if ts = "" then Except.ok (default_or_year_span env year)
      else
        match splitOnChar '-' (pyStrip ts) with
        | [start_str, end_str] =>
            match span_start_bound env start_str, span_end_bound env end_str with
            | some s, some e => Except.ok (s, e)
            | _, _ =>
                Except.error
                  "Invalid timespan format. Use 'DD.MM.YYYY-DD.MM.YYYY' or '*' wildcard."
        | _ =>
            Except.error
              "Invalid timespan format. Use 'DD.MM.YYYY-DD.MM.YYYY' or '*' wildcard."
  | none => Except.ok (default_or_year_span env year)

/-- `BeRealExporter.__init__` followed by `export_memories`, as invoked
by `run_no_curses`: the time span is built during construction, before
any filtering, copying or embedding; a `ValueError` there propagates and
no export work happens. -/
def run_exporter (env : Env) (default_tz : Option String) (create_composites : Bool)
    (sizeOf : String → Option (Nat × Nat)) (timespan : Option String)
    (year : Option Int) (bereal_path out_path : String) (memories : List Memory) :
    Except String (List ExportEvent) :=
  match init_time_span env timespan year with
  | Except.error e => Except.error e
  | Except.ok ts =>
      export_memories env default_tz create_composites sizeOf ts
        bereal_path out_path memories

/-- The processing order of `export_memories` (lines 403-411): the
filtered collection, stably sorted ascending by `dt_key`. -/
def memories_order (env : Env) (ts : Int × Int) (ms : List Memory) : List Memory :=
  List.mergeSort (filter_memories_in_timespan env ts ms)
    (fun a b => decide (dt_key env a ≤ dt_key env b))

/-- A concrete oracle environment for witnesses: empty file system,
nothing parses, trivial formatting, geographic lookup finds no zone. -/
def envA : Env where
  isfile := fun _ => false
  parseTime := fun _ => none
  parseDate := fun _ => none
  dateToInstant := fun _ _ _ => 0
  splitextRoot := fun s => s
  splitextExt := fun _ => ""
  fmtTs := fun _ => "ts"
  fmtDate := fun _ => "d"
  fmtExif := fun _ _ => "e"
  tfTimezoneAt := fun _ _ => Except.ok none
  pytzTimezone := fun s => Except.ok s
  resizeHeight := fun sf _ fh => sf * fh
  dtMin := -1000000
  now := 1000

/-- `envA` with every timestamp parsing to instant 5. -/
def envB : Env := { envA with parseTime := fun _ => some 5 }

/-- `envA` with a file system on which every path exists. -/
def envT : Env := { envA with isfile := fun _ => true }

/-- `envA` with three parsable timestamps `t1 ↦ 1`, `t2 ↦ 2`, `t3 ↦ 3`. -/
def env6 : Env :=
  { envA with parseTime := fun s =>
      if s = "t1" then some 1 else if s = "t2" then some 2
      else if s = "t3" then some 3 else none }

/-- A record whose stored timestamp does not parse. -/
def memBad : Memory := ⟨"not-a-timestamp", "front.webp", "back.webp", none, none⟩

/-- A record with a parsable timestamp (under `envB`). -/
def memB : Memory := ⟨"x", "front.webp", "back.webp", none, none⟩

/-- Records with timestamps `t1 < t2 < t3` (under `env6`). -/
def mem1 : Memory := ⟨"t1", "f1", "b1", none, none⟩

/-- Second record of the sorting example. -/
def mem2 : Memory := ⟨"t2", "f2", "b2", none, none⟩

/-- Third record of the sorting example. -/
def mem3 : Memory := ⟨"t3", "f3", "b3", none, none⟩

lemma fallbackOrUtc_eq_pair (env : Env) (default_tz : Option String) (d : PyDatetime) :
    fallbackOrUtc env default_tz d = (fallback_pair env default_tz d).1 := by
  unfold fallbackOrUtc fallback_pair
  cases default_tz with
  | none => rfl
  | some s =>
      by_cases hs : s = "" <;> simp [hs]
      cases env.pytzTimezone s <;> rfl

lemma fallback_pair_instant (env : Env) (default_tz : Option String) (d : PyDatetime) :
    (fallback_pair env default_tz d).1.instant = d.instant := by
  unfold fallback_pair
  cases default_tz with
  | none => rfl
  | some s =>
      by_cases hs : s = "" <;> simp [hs]
      cases env.pytzTimezone s <;> simp [astimezone]

/-- Central lemma: the code's `localize_datetime` never raises and
returns exactly the datetime of the spec chain. -/
lemma localize_eq_spec (env : Env) (default_tz : Option String) (d : PyDatetime)
    (lat lon : Option Rat) :
    localize_datetime env default_tz d lat lon =
      Except.ok (localize_spec env default_tz d lat lon).1 := by
  unfold localize_datetime localize_spec
  cases lat with
  | none => simp [fallbackOrUtc_eq_pair]
  | some la =>
      cases lon with
      | none => simp [fallbackOrUtc_eq_pair]
      | some lo =>
          cases htf : env.tfTimezoneAt lo la with
          | error e => simp [htf, fallbackOrUtc_eq_pair]
          | ok tzName =>
              cases tzName with
              | none => simp [htf, fallbackOrUtc_eq_pair]
              | some name =>
                  by_cases hn : name = "" <;> simp [htf, hn, fallbackOrUtc_eq_pair]
                  cases hp : env.pytzTimezone name <;> simp [hp, fallbackOrUtc_eq_pair]

lemma localize_spec_instant (env : Env) (default_tz : Option String) (d : PyDatetime)
    (lat lon : Option Rat) :
    (localize_spec env default_tz d lat lon).1.instant = d.instant := by
  unfold localize_spec
  cases lat with
  | none => exact fallback_pair_instant env default_tz d
  | some la =>
      cases lon with
      | none => exact fallback_pair_instant env default_tz d
      | some lo =>
          cases htf : env.tfTimezoneAt lo la with
          | error e => simp [htf, fallback_pair_instant]
          | ok tzName =>
              cases tzName with
              | none => simp [htf, fallback_pair_instant]
              | some name =>
                  by_cases hn : name = "" <;> simp [htf, hn, fallback_pair_instant]
                  cases hp : env.pytzTimezone name <;>
                    simp [hp, astimezone, fallback_pair_instant]

lemma fallback_pair_noneSrc (env : Env) (default_tz : Option String) (d : PyDatetime)
    (h : (fallback_pair env default_tz d).2 = TzSource.noneSrc) :
    (fallback_pair env default_tz d).1 = d := by
  unfold fallback_pair at *
  cases default_tz with
  | none => rfl
  | some s =>
      by_cases hs : s = "" <;> simp [hs] at h ⊢
      cases hp : env.pytzTimezone s <;> simp [hp] at h ⊢

lemma fallback_pair_default (env : Env) (default_tz : Option String) (d : PyDatetime)
    (h : (fallback_pair env default_tz d).2 = TzSource.fallbackDefault) :
    ∃ s z, default_tz = some s ∧ s ≠ "" ∧ env.pytzTimezone s = Except.ok z ∧
      (fallback_pair env default_tz d).1 = astimezone d z := by
  unfold fallback_pair at *
  cases default_tz with
  | none => exact absurd h (by simp)
  | some s =>
      by_cases hs : s = "" <;> simp [hs] at h ⊢
      cases hp : env.pytzTimezone s <;> simp [hp] at h ⊢

lemma fallback_pair_ne_geo (env : Env) (default_tz : Option String) (d : PyDatetime) :
    (fallback_pair env default_tz d).2 ≠ TzSource.geo := by
  unfold fallback_pair
  cases default_tz with
  | none => simp
  | some s =>
      by_cases hs : s = "" <;> simp [hs]
      cases hp : env.pytzTimezone s <;> simp

/-- C2: for every UTC instant, every combination of optional/invalid
coordinates (the lookup oracle may find a zone, find none, or raise, the
latter covering out-of-range latitude/longitude) and every configured
default zone (absent, valid or rejected by pytz), `localize_datetime`
returns a datetime and never raises — it equals the spec's deterministic
chain `localize_spec`, which picks exactly one source; the `none` source
returns the UTC datetime unchanged, the `fallback-default` source
converts with the validated default zone, and the `geo` source converts
with the zone found for the coordinates. -/
theorem localize_datetime_total_refines_spec (env : Env) (default_tz : Option String)
    (dt_utc : PyDatetime) (lat lon : Option Rat) :
    localize_datetime env default_tz dt_utc lat lon =
      Except.ok (localize_spec env default_tz dt_utc lat lon).1 ∧
    ((localize_spec env default_tz dt_utc lat lon).2 = TzSource.noneSrc →
      (localize_spec env default_tz dt_utc lat lon).1 = dt_utc) ∧
    ((localize_spec env default_tz dt_utc lat lon).2 = TzSource.fallbackDefault →
      ∃ s z, default_tz = some s ∧ s ≠ "" ∧ env.pytzTimezone s = Except.ok z ∧
        (localize_spec env default_tz dt_utc lat lon).1 = astimezone dt_utc z) ∧
    ((localize_spec env default_tz dt_utc lat lon).2 = TzSource.geo →
      ∃ la lo name z, lat = some la ∧ lon = some lo ∧
        env.tfTimezoneAt lo la = Except.ok (some name) ∧ name ≠ "" ∧
        env.pytzTimezone name = Except.ok z ∧
        (localize_spec env default_tz dt_utc lat lon).1 = astimezone dt_utc z) := by
  refine ⟨localize_eq_spec env default_tz dt_utc lat lon, ?_, ?_, ?_⟩ <;>
    · unfold localize_spec
      cases lat with
      | none =>
          intro h
          first
          | exact fallback_pair_noneSrc env default_tz dt_utc h
          | exact fallback_pair_default env default_tz dt_utc h
          | exact absurd h (fallback_pair_ne_geo env default_tz dt_utc)
      | some la =>
          cases lon with
          | none =>
              intro h
              first
              | exact fallback_pair_noneSrc env default_tz dt_utc h
              | exact fallback_pair_default env default_tz dt_utc h
              | exact absurd h (fallback_pair_ne_geo env default_tz dt_utc)
          | some lo =>
              cases htf : env.tfTimezoneAt lo la with
              | error e =>
                  simp only [htf]
                  intro h
                  first
                  | exact fallback_pair_noneSrc env default_tz dt_utc h
                  | exact fallback_pair_default env default_tz dt_utc h
                  | exact absurd h (fallback_pair_ne_geo env default_tz dt_utc)
              | ok tzName =>
                  cases tzName with
                  | none =>
                      simp only [htf]
                      intro h
                      first
                      | exact fallback_pair_noneSrc env default_tz dt_utc h
                      | exact fallback_pair_default env default_tz dt_utc h
                      | exact absurd h (fallback_pair_ne_geo env default_tz dt_utc)
                  | some name =>
                      by_cases hn : name = ""
                      · simp only [htf, hn, if_pos rfl]
                        intro h
                        first
                        | exact fallback_pair_noneSrc env default_tz dt_utc h
                        | exact fallback_pair_default env default_tz dt_utc h
                        | exact absurd h (fallback_pair_ne_geo env default_tz dt_utc)
                      · cases hp : env.pytzTimezone name with
                        | ok z =>
                            simp only [htf, hn, if_neg hn, hp]
                            intro h
                            first
                            | (simp at h; done)
                            | exact ⟨la, lo, name, z, rfl, rfl, htf, hn, hp, by simp⟩
                        | error e =>
                            simp only [htf, hn, if_neg hn, hp]
                            intro h
                            first
                            | exact fallback_pair_noneSrc env default_tz dt_utc h
                            | exact fallback_pair_default env default_tz dt_utc h
                            | exact absurd h (fallback_pair_ne_geo env default_tz dt_utc)

/-- C9: localization never changes the absolute instant — the returned
datetime converts back to the original UTC instant; only the zone used
for rendering differs. -/
theorem localize_datetime_preserves_instant (env : Env) (default_tz : Option String)
    (dt_utc : PyDatetime) (lat lon : Option Rat) :
    ∃ r, localize_datetime env default_tz dt_utc lat lon = Except.ok r ∧
      r.instant = dt_utc.instant :=
  ⟨(localize_spec env default_tz dt_utc lat lon).1,
    localize_eq_spec env default_tz dt_utc lat lon,
    localize_spec_instant env default_tz dt_utc lat lon⟩

/-- C10: GPS tags are written exactly when both coordinates are present
(absolute values with N/S and E/W hemisphere references); with exactly
one coordinate the tag set is identical to the coordinate-free one
(no GPS tags at all) and the timestamp localization takes the
absent-coordinates fallback branch. -/
theorem embed_exif_gps_both_or_none (env : Env) (default_tz : Option String)
    (dt_utc : PyDatetime) (la lo : Rat) :
    (∃ dto, embed_exif env default_tz dt_utc (some la) (some lo) =
      Except.ok
        { dateTimeOriginal := dto
          gpsLatitude := some (abs la)
          gpsLatitudeRef := some (if 0 ≤ la then "N" else "S")
          gpsLongitude := some (abs lo)
          gpsLongitudeRef := some (if 0 ≤ lo then "E" else "W") }) ∧
    embed_exif env default_tz dt_utc (some la) none =
      embed_exif env default_tz dt_utc none none ∧
    embed_exif env default_tz dt_utc none (some lo) =
      embed_exif env default_tz dt_utc none none ∧
    (∃ tg, embed_exif env default_tz dt_utc none none = Except.ok tg ∧
      tg.gpsLatitude = none ∧ tg.gpsLatitudeRef = none ∧
      tg.gpsLongitude = none ∧ tg.gpsLongitudeRef = none) ∧
    localize_datetime env default_tz dt_utc (some la) none =
      Except.ok (fallbackOrUtc env default_tz dt_utc) ∧
    localize_datetime env default_tz dt_utc none (some lo) =
      Except.ok (fallbackOrUtc env default_tz dt_utc) := by
  refine ⟨?_, rfl, rfl, ⟨_, rfl, rfl, rfl, rfl, rfl⟩, rfl, rfl⟩
  unfold embed_exif
  rw [localize_eq_spec]
  exact ⟨_, rfl⟩

/-- C5: a record survives the time-window filter exactly when its stored
timestamp parses and the parsed UTC instant lies in the inclusive window
`start ≤ t ≤ end`; unparsable timestamps are dropped (the bare
`except: continue`) and never raise. -/
theorem filter_memories_iff (env : Env) (s e : Int) (ms : List Memory) (m : Memory) :
    m ∈ filter_memories_in_timespan env (s, e) ms ↔
      m ∈ ms ∧ ∃ d, env.parseTime m.takenTime = some d ∧ s ≤ d ∧ d ≤ e := by
  unfold filter_memories_in_timespan
  rw [List.mem_filter]
  cases h : env.parseTime m.takenTime <;> simp [h]

lemma firstExisting_isfile (env : Env) :
    ∀ (l : List String) (p : String), firstExisting env l = some p → env.isfile p = true := by
  intro l
  induction l with
  | nil => intro p hp; simp [firstExisting] at hp
  | cons q qs ih =>
      intro p hp
      unfold firstExisting at hp
      by_cases hq : env.isfile q
      · simp [hq] at hp; rw [← hp]; exact hq
      · simp [hq] at hp; exact ih p hp

/-- C3: path resolution equals first-match over the spec's ordered
candidate list — the hint-indicated conventional directory (for a
`/post/` or `/bereal/` hint) first, then `Photos/post` before
`Photos/bereal`, all keyed by the filename basename — and any returned
path exists on the file system (so a missing file yields `none`, never
an exception). -/
theorem resolve_img_path_spec_order (env : Env) (bp ps : String) :
    resolve_img_path env bp ps = firstExisting env (spec_candidates bp ps) ∧
    ∀ p, resolve_img_path env bp ps = some p → env.isfile p = true := by
  have horder : resolve_img_path env bp ps = firstExisting env (spec_candidates bp ps) := by
    unfold resolve_img_path spec_candidates
    by_cases h1 : strContains ps "/post/" <;>
      by_cases h2 : strContains ps "/bereal/" <;>
        simp only [h1, h2, if_true, if_false, Bool.false_eq_true, List.cons_append,
          List.nil_append] <;>
      split_ifs <;> simp_all [firstExisting]
  refine ⟨horder, fun p hp => ?_⟩
  rw [horder] at hp
  exact firstExisting_isfile env _ p hp

/-- C7 (amended): a nonempty malformed timespan — the stripped string
does not split on `-` into exactly two bounds each of which is `*` or a
parsable `DD.MM.YYYY` date — makes time-window construction raise the
"Invalid timespan format" `ValueError` (the spec's `ConfigurationError`)
during exporter initialization, so the whole run errors out with no
export event; a well-formed span is accepted with its two resolved
bounds, where the `*` start resolves to the epoch start
`dt(1970, 1, 1)` and the `*` end to the current instant.  (The empty
timespan string is falsy in Python and falls through to the year/default
arms instead of raising; see the counterexample.) -/
theorem init_time_span_malformed_errors (env : Env) (default_tz : Option String)
    (cc : Bool) (sizeOf : String → Option (Nat × Nat)) (year : Option Int)
    (bp op : String) (ms : List Memory) (ts : String) :
    ((ts ≠ "" ∧ ∀ a b, splitOnChar '-' (pyStrip ts) = [a, b] →
        span_start_bound env a = none ∨ span_end_bound env b = none) →
      ∃ msg, init_time_span env (some ts) year = Except.error msg ∧
        run_exporter env default_tz cc sizeOf (some ts) year bp op ms =
          Except.error msg) ∧
    (∀ a b s e, splitOnChar '-' (pyStrip ts) = [a, b] →
      span_start_bound env a = some s → span_end_bound env b = some e →
      init_time_span env (some ts) year = Except.ok (s, e)) ∧
    span_start_bound env "*" = some (env.dateToInstant 1970 1 1) ∧
    span_end_bound env "*" = some env.now := by
  refine ⟨?_, ?_, rfl, rfl⟩
  · rintro ⟨hne, hbad⟩
    have hinit : init_time_span env (some ts) year =
        Except.error
          "Invalid timespan format. Use 'DD.MM.YYYY-DD.MM.YYYY' or '*' wildcard." := by
      simp only [init_time_span]
      rw [if_neg hne]
      rcases hsplit : splitOnChar '-' (pyStrip ts) with _ | ⟨a, _ | ⟨b, _ | ⟨c, rest⟩⟩⟩
      · rfl
      · rfl
      · dsimp only
        rcases hbad a b hsplit with h | h
        · rw [h]
        · rcases hs : span_start_bound env a with _ | v <;> rw [h]
      · rfl
    refine ⟨_, hinit, ?_⟩
    unfold run_exporter
    rw [hinit]
  · intro a b s e hsplit hs he
    simp only [init_time_span]
    have hne : ts ≠ "" := by
      intro h0
      rw [h0] at hsplit
      simp [pyStrip, splitOnChar, splitOnCharAux, String.toList] at hsplit
    rw [if_neg hne, hsplit]
    dsimp only
    rw [hs, he]

lemma embed_exif_ok (env : Env) (dtz : Option String) (d : PyDatetime)
    (lat lon : Option Rat) : ∃ tg, embed_exif env dtz d lat lon = Except.ok tg := by
  unfold embed_exif
  rw [localize_eq_spec]
  cases lat <;> cases lon <;> exact ⟨_, rfl⟩

lemma copy_and_embed_ok (env : Env) (dtz : Option String) (old_path new_path : String)
    (d : PyDatetime) (lat lon : Option Rat) :
    ∃ evs r, copy_and_embed env dtz old_path new_path d lat lon = Except.ok (evs, r) ∧
      evs.countP isProgress = 0 := by
  unfold copy_and_embed
  split_ifs with h hext
  · exact ⟨_, _, rfl, rfl⟩
  · obtain ⟨tg, htg⟩ := embed_exif_ok env dtz d lat lon
    rw [htg]
    exact ⟨_, _, rfl, rfl⟩
  · obtain ⟨tg, htg⟩ := embed_exif_ok env dtz d lat lon
    rw [htg]
    exact ⟨_, _, rfl, rfl⟩

lemma create_composite_ok (env : Env) (dtz : Option String)
    (sizeOf : String → Option (Nat × Nat)) (front_path back_path out_path : String)
    (d : PyDatetime) (lat lon : Option Rat) :
    ∃ evs r, create_composite env dtz sizeOf front_path back_path out_path d lat lon =
      Except.ok (evs, r) ∧ evs.countP isProgress = 0 := by
  unfold create_composite
  rcases hb : sizeOf back_path with _ | ⟨b_w, b_h⟩
  · exact ⟨_, _, rfl, rfl⟩
  · rcases hf : sizeOf front_path with _ | ⟨f_w, f_h⟩
    · exact ⟨_, _, rfl, rfl⟩
    · obtain ⟨tg, htg⟩ := embed_exif_ok env dtz d lat lon
      rw [htg]
      exact ⟨_, _, rfl, rfl⟩

lemma no_progress_of_countP_zero {evs : List ExportEvent}
    (h : evs.countP isProgress = 0) {j tt : Nat} {ds : String}
    (hm : ExportEvent.progress j tt ds ∈ evs) : False := by
  have := List.countP_eq_zero.mp h _ hm
  simp [isProgress] at this

lemma exportStep_ok (env : Env) (dtz : Option String) (cc : Bool)
    (sizeOf : String → Option (Nat × Nat)) (bp om oc : String) (total i : Nat)
    (mem : Memory) (t : Int) (hp : env.parseTime mem.takenTime = some t) :
    ∃ evs, exportStep env dtz cc sizeOf bp om oc total i mem = Except.ok evs ∧
      evs.countP isProgress = 1 ∧
      ∀ j tt ds, ExportEvent.progress j tt ds ∈ evs → j = i ∧ tt = total := by
  unfold exportStep
  rw [hp]
  dsimp only
  rcases ha : resolve_img_path env bp mem.frontImagePath with _ | fs_
  · rcases hb : resolve_img_path env bp mem.backImagePath with _ | bs_ <;>
      · refine ⟨_, rfl, rfl, ?_⟩
        intro j tt ds hm
        simp only [List.mem_cons, List.not_mem_nil, or_false] at hm
        rcases hm with hm | hm
        · exact absurd hm (by simp)
        · injection hm with h1 h2 h3
          exact ⟨h1, h2⟩
  · rcases hb : resolve_img_path env bp mem.backImagePath with _ | bs_
    · refine ⟨_, rfl, rfl, ?_⟩
      intro j tt ds hm
      simp only [List.mem_cons, List.not_mem_nil, or_false] at hm
      rcases hm with hm | hm
      · exact absurd hm (by simp)
      · injection hm with h1 h2 h3
        exact ⟨h1, h2⟩
    · dsimp only
      obtain ⟨evF, rF, hF, cF⟩ := copy_and_embed_ok env dtz fs_
        (pathJoin om (env.fmtTs t ++ "_front")) ⟨t, "UTC"⟩ mem.latitude mem.longitude
      rw [hF]
      obtain ⟨evB, rB, hB, cB⟩ := copy_and_embed_ok env dtz bs_
        (pathJoin om (env.fmtTs t ++ "_back")) ⟨t, "UTC"⟩ mem.latitude mem.longitude
      rw [hB]
      dsimp only
      have hcomp : ∃ evC rC,
          (match cc, rF, rB with
            | true, some cf, some cb =>
                create_composite env dtz sizeOf cf cb
                  (pathJoin oc (env.fmtTs t ++ "_composite")) ⟨t, "UTC"⟩
                  mem.latitude mem.longitude
            | _, _, _ => Except.ok ([], none)) = Except.ok (evC, rC) ∧
          evC.countP isProgress = 0 := by
        cases cc <;> rcases rF with _ | cf <;> rcases rB with _ | cb <;>
          first
          | exact ⟨[], none, rfl, rfl⟩
          | exact create_composite_ok env dtz sizeOf cf cb
              (pathJoin oc (env.fmtTs t ++ "_composite")) ⟨t, "UTC"⟩
              mem.latitude mem.longitude
      obtain ⟨evC, rC, hC, cC⟩ := hcomp
      rw [hC]
      refine ⟨_, rfl, ?_, ?_⟩
      · simp [List.countP_append, cF, cB, cC, List.countP_cons, isProgress]
      · intro j tt ds hm
        simp only [List.append_assoc, List.mem_append] at hm
        rcases hm with hm | hm | hm | hm
        · exact absurd hm (fun hmm => no_progress_of_countP_zero cF hmm)
        · exact absurd hm (fun hmm => no_progress_of_countP_zero cB hmm)
        · exact absurd hm (fun hmm => no_progress_of_countP_zero cC hmm)
        · simp only [List.mem_cons, List.not_mem_nil, or_false] at hm
          injection hm; omega

lemma exportLoop_ok (env : Env) (dtz : Option String) (cc : Bool)
    (sizeOf : String → Option (Nat × Nat)) (bp om oc : String) (total : Nat) :
    ∀ (ms : List Memory) (i : Nat),
      (∀ m ∈ ms, ∃ t, env.parseTime m.takenTime = some t) →
      ∃ evs, exportLoop env dtz cc sizeOf bp om oc total i ms = Except.ok evs ∧
        evs.countP isProgress = ms.length ∧
        ∀ j tt ds, ExportEvent.progress j tt ds ∈ evs → tt = total := by
  intro ms
  induction ms with
  | nil =>
      intro i h
      exact ⟨[], rfl, rfl, by intro j tt ds hm; simp at hm⟩
  | cons m rest ih =>
      intro i h
      obtain ⟨t, ht⟩ := h m (List.mem_cons_self m rest)
      obtain ⟨evs1, h1, c1, p1⟩ := exportStep_ok env dtz cc sizeOf bp om oc total i m t ht
      obtain ⟨evs2, h2, c2, p2⟩ :=
        ih (i + 1) (fun m' hm' => h m' (List.mem_cons_of_mem m hm'))
      refine ⟨evs1 ++ evs2, ?_, ?_, ?_⟩
      · unfold exportLoop
        rw [h1, h2]
      · rw [List.countP_append, c1, c2, List.length_cons]
        omega
      · intro j tt ds hm
        rcases List.mem_append.mp hm with hm | hm
        · exact (p1 j tt ds hm).2
        · exact p2 j tt ds hm

/-- C1 (amended): the exporter emits exactly one progress unit per
record of the *filtered* collection — regardless of whether the record
is exported or skipped for unresolved images — and every progress
update's `total` equals the filtered collection's size; records dropped
for unparsable or out-of-window timestamps are excluded from both the
progress count and the denominator. -/
theorem export_memories_progress_per_filtered (env : Env) (dtz : Option String)
    (cc : Bool) (sizeOf : String → Option (Nat × Nat)) (ts : Int × Int)
    (bp op : String) (ms : List Memory) :
    ∃ evs, export_memories env dtz cc sizeOf ts bp op ms = Except.ok evs ∧
      evs.countP isProgress = (filter_memories_in_timespan env ts ms).length ∧
      ∀ j tt ds, ExportEvent.progress j tt ds ∈ evs →
        tt = (filter_memories_in_timespan env ts ms).length := by
  have hparse : ∀ m ∈ List.mergeSort (filter_memories_in_timespan env ts ms)
      (fun a b => decide (dt_key env a ≤ dt_key env b)),
      ∃ t, env.parseTime m.takenTime = some t := by
    intro m hm
    rw [List.mem_mergeSort] at hm
    unfold filter_memories_in_timespan at hm
    have hpred := (List.mem_filter.mp hm).2
    cases h : env.parseTime m.takenTime with
    | none => rw [h] at hpred; simp at hpred
    | some t => exact ⟨t, rfl⟩
  obtain ⟨evs, hevs, hc, hpr⟩ := exportLoop_ok env dtz cc sizeOf bp
    (pathJoin op "memories") (pathJoin op "composites")
    (List.mergeSort (filter_memories_in_timespan env ts ms)
      (fun a b => decide (dt_key env a ≤ dt_key env b))).length
    (List.mergeSort (filter_memories_in_timespan env ts ms)
      (fun a b => decide (dt_key env a ≤ dt_key env b))) 1 hparse
  refine ⟨evs, ?_, ?_, ?_⟩
  · unfold export_memories
    exact hevs
  · rw [hc, List.length_mergeSort]
  · intro j tt ds hm
    rw [hpr j tt ds hm, List.length_mergeSort]

/-- C1 counterexample: a raw collection of one record with an unparsable
timestamp produces *zero* progress units (the record is filtered out
before `total = len(memories)` is taken), refuting "one progress unit
per record of the raw input collection" and "total equals the size of
the raw input collection". -/
theorem export_memories_progress_counterexample :
    export_memories envA none true (fun _ => none) (0, 1000) "." "out" [memBad] =
      Except.ok [] ∧
    List.countP isProgress ([] : List ExportEvent) = 0 ∧
    ([memBad] : List Memory).length = 1 := by
  refine ⟨?_, rfl, rfl⟩
  simp [export_memories, filter_memories_in_timespan, envA, memBad, exportLoop]

/-- C1 witness: with one filtered-in record whose images are missing,
the run still emits one progress unit with denominator 1. -/
theorem export_memories_progress_witness :
    ∃ evs, export_memories envB none true (fun _ => none) (0, 10) "." "o" [memB] =
      Except.ok evs ∧
      List.countP isProgress evs =
        (filter_memories_in_timespan envB (0, 10) [memB]).length := by
  obtain ⟨evs, h1, h2, h3⟩ :=
    export_memories_progress_per_filtered envB none true (fun _ => none) (0, 10) "." "o" [memB]
  exact ⟨evs, h1, h2⟩

/-- C4: when either image reference of a record fails to resolve, the
record contributes exactly a skip log line and a progress tick — no file
copy and no composite — and the loop continues with the remaining
records. -/
theorem exportStep_all_or_nothing (env : Env) (dtz : Option String) (cc : Bool)
    (sizeOf : String → Option (Nat × Nat)) (bp om oc : String) (total i : Nat)
    (mem : Memory) (t : Int) (hp : env.parseTime mem.takenTime = some t)
    (hmiss : resolve_img_path env bp mem.frontImagePath = none ∨
             resolve_img_path env bp mem.backImagePath = none) :
    exportStep env dtz cc sizeOf bp om oc total i mem =
      Except.ok [ExportEvent.logMsg "Skipping memory due to missing front/back images.",
                 ExportEvent.progress i total ""] ∧
    List.countP isCopyOrComposite
      [ExportEvent.logMsg "Skipping memory due to missing front/back images.",
       ExportEvent.progress i total ""] = 0 ∧
    ∀ rest, exportLoop env dtz cc sizeOf bp om oc total i (mem :: rest) =
      Except.map
        (fun evs => ExportEvent.logMsg "Skipping memory due to missing front/back images." ::
          ExportEvent.progress i total "" :: evs)
        (exportLoop env dtz cc sizeOf bp om oc total (i + 1) rest) := by
  have hstep : exportStep env dtz cc sizeOf bp om oc total i mem =
      Except.ok [ExportEvent.logMsg "Skipping memory due to missing front/back images.",
                 ExportEvent.progress i total ""] := by
    unfold exportStep
    rw [hp]
    dsimp only
    rcases hmiss with h | h
    · rw [h]
    · rcases ha : resolve_img_path env bp mem.frontImagePath with _ | fs_ <;> rw [h]
  refine ⟨hstep, rfl, ?_⟩
  intro rest
  have hL : exportLoop env dtz cc sizeOf bp om oc total i (mem :: rest) =
      (match exportStep env dtz cc sizeOf bp om oc total i mem with
       | Except.error e => Except.error e
       | Except.ok evs =>
          match exportLoop env dtz cc sizeOf bp om oc total (i + 1) rest with
          | Except.error e => Except.error e
          | Except.ok evrest => Except.ok (evs ++ evrest)) := rfl
  rw [hL, hstep]
  cases hrest : exportLoop env dtz cc sizeOf bp om oc total (i + 1) rest <;>
    simp [Except.map]

/-- C4 witness: a record whose front image does not resolve is skipped
with a log line and a progress tick only. -/
theorem exportStep_all_or_nothing_witness :
    exportStep envB none true (fun _ => none) "." "om" "oc" 3 1 memB =
      Except.ok [ExportEvent.logMsg "Skipping memory due to missing front/back images.",
                 ExportEvent.progress 1 3 ""] :=
  (exportStep_all_or_nothing envB none true (fun _ => none) "." "om" "oc" 3 1 memB 5 rfl
    (Or.inl rfl)).1

/-- C6: `export_memories` runs its loop exactly on `memories_order` —
the filtered records sorted ascending by parsed timestamp — which is
sorted by `dt_key`, is a permutation of the filtered collection, and
keeps the relative input order of any already-ordered pair (hence of
records with equal timestamps: the sort is stable). -/
theorem export_memories_sorted_stable (env : Env) (dtz : Option String) (cc : Bool)
    (sizeOf : String → Option (Nat × Nat)) (ts : Int × Int) (bp op : String)
    (ms : List Memory) :
    export_memories env dtz cc sizeOf ts bp op ms =
      exportLoop env dtz cc sizeOf bp (pathJoin op "memories") (pathJoin op "composites")
        (memories_order env ts ms).length 1 (memories_order env ts ms) ∧
    (memories_order env ts ms).Pairwise (fun a b => dt_key env a ≤ dt_key env b) ∧
    (memories_order env ts ms).Perm (filter_memories_in_timespan env ts ms) ∧
    ∀ a b, List.Sublist [a, b] (filter_memories_in_timespan env ts ms) →
      dt_key env a ≤ dt_key env b → List.Sublist [a, b] (memories_order env ts ms) := by
  have htrans : ∀ (x y z : Memory),
      (fun a b => decide (dt_key env a ≤ dt_key env b)) x y →
      (fun a b => decide (dt_key env a ≤ dt_key env b)) y z →
      (fun a b => decide (dt_key env a ≤ dt_key env b)) x z := by
    intro x y z hxy hyz
    simp only [decide_eq_true_eq] at *
    exact le_trans hxy hyz
  have htotal : ∀ (x y : Memory),
      (fun a b => decide (dt_key env a ≤ dt_key env b)) x y ||
      (fun a b => decide (dt_key env a ≤ dt_key env b)) y x := by
    intro x y
    simp only [Bool.or_eq_true, decide_eq_true_eq]
    exact le_total _ _
  refine ⟨rfl, ?_, ?_, ?_⟩
  · exact (List.sorted_mergeSort htrans htotal _).imp (fun h => of_decide_eq_true h)
  · exact List.mergeSort_perm _ _
  · intro a b hsub hle
    exact List.pair_sublist_mergeSort htrans htotal (decide_eq_true hle) hsub

/-- C6 witness: records with timestamps `[t3, t1, t2]` are processed in
order `[t1, t2, t3]`, a permutation of the filtered input. -/
theorem export_memories_sorted_witness :
    memories_order env6 (0, 10) [mem3, mem1, mem2] = [mem1, mem2, mem3] ∧
    (memories_order env6 (0, 10) [mem3, mem1, mem2]).Perm
      (filter_memories_in_timespan env6 (0, 10) [mem3, mem1, mem2]) := by
  constructor
  · simp [memories_order, filter_memories_in_timespan, env6, envA, mem1, mem2, mem3,
      dt_key, List.mergeSort, List.splitInTwo, List.merge]
  · exact (export_memories_sorted_stable env6 none true (fun _ => none) (0, 10) "." "o"
      [mem3, mem1, mem2]).2.2.1

/-- C8 (amended): the composite's resized front width is
`max 1 (back_width / 4)` — equal to `back_width / 4` whenever the back
is at least 4 pixels wide, so a 1000-pixel back yields exactly 250 —
the front height is the code's floating-point rescale, the corner
radius is `min(width, height) / 8` of the resized front, the front is
pasted at the back's top-left corner `(0, 0)`, and the result is
flattened to opaque RGB. -/
theorem composite_geom_spec (env : Env) (b_w f_w f_h : Nat) :
    (composite_geom env b_w f_w f_h).frontW = max 1 (b_w / 4) ∧
    (4 ≤ b_w → (composite_geom env b_w f_w f_h).frontW = b_w / 4) ∧
    (composite_geom env 1000 f_w f_h).frontW = 250 ∧
    (composite_geom env b_w f_w f_h).frontH =
      env.resizeHeight (max 1 (b_w / 4)) f_w f_h ∧
    (composite_geom env b_w f_w f_h).radius =
      min (max 1 (b_w / 4)) (env.resizeHeight (max 1 (b_w / 4)) f_w f_h) / 8 ∧
    (composite_geom env b_w f_w f_h).pasteX = 0 ∧
    (composite_geom env b_w f_w f_h).pasteY = 0 ∧
    (composite_geom env b_w f_w f_h).flattenedRGB = true := by
  refine ⟨rfl, ?_, rfl, rfl, rfl, rfl, rfl, rfl⟩
  intro h
  have h1 : 1 ≤ b_w / 4 := (Nat.one_le_div_iff (by norm_num)).mpr h
  simp [composite_geom, scale_factor, Nat.max_eq_right h1]

/-- C8 counterexample: for a back image 2 pixels wide the code clamps
the front width to `max(1, 2 // 4) = 1`, while "width equal to the back
image's width divided by 4" would be `2 / 4 = 0`. -/
theorem composite_geom_counterexample :
    (composite_geom envA 2 8 8).frontW = 1 ∧ (2 : Nat) / 4 = 0 := by
  exact ⟨rfl, rfl⟩

/-- C8 witness: at back width 1000 the clamp is inactive and the front
width is exactly 250 = 1000 / 4. -/
theorem composite_geom_witness :
    (composite_geom envA 1000 400 500).frontW = 1000 / 4 ∧
    (composite_geom envA 1000 400 500).frontW = 250 :=
  ⟨(composite_geom_spec envA 1000 400 500).2.1 (by norm_num),
   (composite_geom_spec envA 1000 400 500).2.2.1⟩

/-- C2 witness: with no coordinates and no default zone the chain picks
the `none` source and returns the UTC datetime unchanged, and the run
never raises. -/
theorem localize_datetime_witness :
    localize_datetime envA none ⟨5, "UTC"⟩ none none = Except.ok ⟨5, "UTC"⟩ ∧
    (localize_spec envA none ⟨5, "UTC"⟩ none none).1 = ⟨5, "UTC"⟩ :=
  ⟨(localize_datetime_total_refines_spec envA none ⟨5, "UTC"⟩ none none).1,
   (localize_datetime_total_refines_spec envA none ⟨5, "UTC"⟩ none none).2.1 rfl⟩

/-- C3 witness: a `/post/` hinted reference on a full file system
resolves to the current-convention path, which exists. -/
theorem resolve_img_path_witness :
    resolve_img_path envT "." "/post/a.jpg" =
      firstExisting envT (spec_candidates "." "/post/a.jpg") ∧
    envT.isfile (pathJoin (pathJoin "." "Photos/post") "a.jpg") = true :=
  ⟨(resolve_img_path_spec_order envT "." "/post/a.jpg").1,
   (resolve_img_path_spec_order envT "." "/post/a.jpg").2
     (pathJoin (pathJoin "." "Photos/post") "a.jpg") rfl⟩

/-- C5 witness: a record with timestamp exactly at the window start is
kept (inclusive lower bound). -/
theorem filter_memories_witness :
    memB ∈ filter_memories_in_timespan envB (5, 10) [memB] :=
  (filter_memories_iff envB 5 10 [memB] memB).mpr
    ⟨List.mem_cons_self memB [], 5, rfl, le_refl 5, by norm_num⟩

/-- C7 counterexample: the empty string is a malformed timespan (not of
the form `DD.MM.YYYY-DD.MM.YYYY`), yet `init_time_span` does not raise:
Python's falsiness of `""` routes it to the all-time default span. -/
theorem init_time_span_empty_counterexample :
    init_time_span envA (some "") none = Except.ok (0, 1000) := rfl

/-- C7 witness: the malformed timespan `"x"` (no `-` separator) makes
initialization and the whole run fail before any export event. -/
theorem init_time_span_malformed_witness :
    ∃ msg, init_time_span envA (some "x") none = Except.error msg ∧
      run_exporter envA none true (fun _ => none) (some "x") none "." "o" [] =
        Except.error msg := by
  refine (init_time_span_malformed_errors envA none true (fun _ => none) none "." "o" [] "x").1
    ⟨by decide, ?_⟩
  intro a b h
  rw [show splitOnChar '-' (pyStrip "x") = ["x"] from rfl] at h
  simp at h

/-- C10 witness: with both coordinates present the GPS tags carry the
absolute values and hemisphere references. -/
theorem embed_exif_gps_witness :
    (∃ dto, embed_exif envA none ⟨5, "UTC"⟩ (some (-1)) (some 2) =
      Except.ok
        { dateTimeOriginal := dto
          gpsLatitude := some (abs (-1 : Rat))
          gpsLatitudeRef := some (if (0 : Rat) ≤ (-1 : Rat) then "N" else "S")
          gpsLongitude := some (abs (2 : Rat))
          gpsLongitudeRef := some (if (0 : Rat) ≤ (2 : Rat) then "E" else "W") }) ∧
    (if (0 : Rat) ≤ (-1 : Rat) then "N" else "S") = "S" ∧
    abs (-1 : Rat) = 1 :=
  ⟨(embed_exif_gps_both_or_none envA none ⟨5, "UTC"⟩ (-1) 2).1,
   by norm_num, by norm_num⟩

end BRE